import Mathlib

/-
Shallow embedding of src/main.py (YOWO training/evaluation orchestrator).

The orchestrator builds a model, an optimizer, optionally resumes from a
checkpoint file, dispatches on the dataset identifier, and then either runs a
single evaluation (evaluate-only mode) or the closed-range epoch loop
`for epoch in range(cfg.TRAIN.BEGIN_EPOCH, cfg.TRAIN.END_EPOCH + 1)`.

External collaborators (the YOWO model, the optimizer internals, the data
loaders, the train/test procedures, the filesystem) are modelled as an
environment of oracles; the observable behaviour of a run is a trace of
events (model construction, log lines, train/test calls, checkpoint writes,
fatal errors).  Model parameters and optimizer internal state are modelled
as Nat-valued blobs; evaluation scores are rationals.
-/

namespace YOWO

/-- A checkpoint record, as built at src/main.py lines 114-118 and consumed at
lines 53-57: epoch number, evaluation score, model state blob, optimizer
state blob. -/
structure Checkpoint where
  epoch : Int
  score : Rat
  state_dict : Nat
  optimizer : Nat
deriving DecidableEq

/-- cfg.TRAIN sub-record (the fields src/main.py reads or writes). -/
structure TrainCfg where
  DATASET : String
  RESUME_PATH : String
  BEGIN_EPOCH : Int
  END_EPOCH : Int
  EVALUATE : Bool
  LEARNING_RATE : Rat
  BATCH_SIZE : Nat
deriving DecidableEq

/-- cfg.SOLVER sub-record. -/
structure SolverCfg where
  WEIGHT_DECAY : Rat
deriving DecidableEq

/-- cfg.DATA sub-record. -/
structure DataCfg where
  NUM_FRAMES : Nat
  SAMPLING_RATE : Nat
  TRAIN_CROP_SIZE : Nat
deriving DecidableEq

/-- cfg.LISTDATA sub-record. -/
structure ListDataCfg where
  BASE_PTH : String
  TRAIN_FILE : String
  TEST_FILE : String
deriving DecidableEq

/-- The configuration object passed to main (the fields src/main.py uses). -/
structure Config where
  TRAIN : TrainCfg
  SOLVER : SolverCfg
  DATA : DataCfg
  LISTDATA : ListDataCfg
  DATA_LOADER_NUM_WORKERS : Nat
  BACKUP_DIR : String
deriving DecidableEq

/-- Observable events of a run, in emission order. -/
inductive Event where
  /-- `model = YOWO(cfg)` succeeded (src/main.py line 27). -/
  | modelBuilt
  /-- the trainable-parameter-count log line (line 32). -/
  | logParams
  /-- the loading-checkpoint banner (lines 51-52). -/
  | logLoading (path : String)
  /-- a checkpoint was loaded and applied (lines 54-60). -/
  | loadedState (ck : Checkpoint)
  /-- the dataset print (line 68). -/
  | logDataset (d : String)
  /-- the evaluating log line (line 92). -/
  | logEvaluating
  /-- the training-at-epoch log line with the new learning rate (line 101). -/
  | logTrainEpoch (e : Int) (lr : Rat)
  /-- a call of the training procedure at an epoch, recording the model and
  optimizer blobs it was handed (line 102). -/
  | trainCall (e : Int) (model : Nat) (optim : Nat)
  /-- the testing-at-epoch log line (line 104). -/
  | logTestEpoch (e : Int)
  /-- a call of the evaluation procedure at an epoch, recording the model blob
  it was handed (lines 93 and 105). -/
  | testCall (e : Int) (model : Nat)
  /-- the new-best-score prints (lines 110-111). -/
  | logNewBest (score : Rat) (old : Rat)
  /-- a checkpoint write to the rolling latest slot. -/
  | saveLatest (ck : Checkpoint)
  /-- a checkpoint write to the best slot. -/
  | saveBest (ck : Checkpoint)
  /-- the weights-are-saved log line (line 120). -/
  | logSaved (dir : String)
  /-- an uncaught exception terminating the process. -/
  | fatal (msg : String)
deriving DecidableEq

/-- Environment of external collaborators.  `fs` maps a path to `none` when no
file exists there, `some none` when a file exists but is not loadable as a
checkpoint, and `some (some ck)` when it holds checkpoint `ck`.  `trainUpd`
is the effect of one call of the training procedure on the (model, optimizer)
blobs; `testScore` is the score the evaluation procedure returns at an epoch;
`lrOf` is `adjust_learning_rate`; `initModel`/`initOptim` are the freshly
initialized blobs. -/
structure Env where
  fs : String → Option (Option Checkpoint)
  trainUpd : Int → Nat × Nat → Nat × Nat
  testScore : Int → Rat
  lrOf : Int → Rat
  initModel : Nat
  initOptim : Nat

/-- Orchestrator-owned mutable state during the run: model blob, optimizer
blob, best score seen so far. -/
structure LoopState where
  model : Nat
  optim : Nat
  best : Rat
deriving DecidableEq

/-- Python `range(b, e + 1)`: the closed integer range [b, e]. -/
def rangeClosed (b e : Int) : List Int :=
  (List.range (e + 1 - b).toNat).map (fun (i : Nat) => b + (i : Int))

/-- Modelled from the spec: `save_checkpoint` (defined in core/utils, which is
not under src/) persists the record unconditionally to the rolling latest
slot and, when `is_best` holds, additionally persists the same record to the
best slot. -/
def save_checkpoint (state : Checkpoint) (is_best : Bool) : List Event :=
  Event.saveLatest state :: (if is_best then [Event.saveBest state] else [])

/-- One iteration of the epoch loop body (src/main.py lines 97-120), for a run
whose dataset dispatch resolved the train/test procedures: adjust the
learning rate, train, test, compare the score strictly against the best
score, and save a checkpoint of this epoch. -/
def epochStep (env : Env) (cfg : Config) (epoch : Int) (st : LoopState) :
    List Event × LoopState :=
  let lr_new := env.lrOf epoch
  let mo := env.trainUpd epoch (st.model, st.optim)
  let score := env.testScore epoch
  let is_best : Bool := decide (score > st.best)
  let best1 := if is_best then score else st.best
  let state : Checkpoint := ⟨epoch, score, mo.1, mo.2⟩
  ([Event.logTrainEpoch epoch lr_new, Event.trainCall epoch st.model st.optim,
    Event.logTestEpoch epoch, Event.testCall epoch mo.1]
    ++ (if is_best then [Event.logNewBest score st.best] else [])
    ++ save_checkpoint state is_best
    ++ [Event.logSaved cfg.BACKUP_DIR],
   ⟨mo.1, mo.2, best1⟩)

/-- The epoch loop (src/main.py line 96).  `defined` records whether the
dataset dispatch (lines 70-88) bound `train_loader`, `test_loader`,
`loss_module`, `train` and `test`; when it did not (the ava case), the first
iteration raises a NameError at the `train(...)` call, after
`adjust_learning_rate` and the training log line already ran.  Returns the
emitted events, the final loop state, and whether the loop completed without
a fatal error. -/
def runLoop (env : Env) (cfg : Config) (defined : Bool) :
    List Int → LoopState → List Event × LoopState × Bool
  | [], st => ([], st, true)
  | epoch :: rest, st =>
    if defined then
      let p := epochStep env cfg epoch st
      let r := runLoop env cfg defined rest p.2
      (p.1 ++ r.1, r.2.1, r.2.2)
    else
      ([Event.logTrainEpoch epoch (env.lrOf epoch),
        Event.fatal "NameError: name train_loader is not defined"], st, false)

/-- Result of the pre-loop part of main: events so far, the (possibly
mutated) configuration object, the loop state, and whether execution may
continue. -/
structure InitResult where
  events : List Event
  cfg : Config
  st : LoopState
  ok : Bool
deriving DecidableEq

/-- src/main.py lines 27-62: model construction, optimizer construction,
`best_score = 0`, then the resume step.  If a file exists at
cfg.TRAIN.RESUME_PATH it is loaded: a malformed file makes `torch.load`
raise (fatal); a well-formed checkpoint overwrites cfg.TRAIN.BEGIN_EPOCH
with its epoch + 1, the best score with its score, and the model and
optimizer blobs with its stored blobs.  If no file exists the step is
skipped silently. -/
def resumeInit (env : Env) (cfg : Config) : InitResult :=
  let ev0 := [Event.modelBuilt, Event.logParams]
  let st0 : LoopState := ⟨env.initModel, env.initOptim, 0⟩
  match env.fs cfg.TRAIN.RESUME_PATH with
  | none => ⟨ev0, cfg, st0, true⟩
  | some none =>
    ⟨ev0 ++ [Event.logLoading cfg.TRAIN.RESUME_PATH,
             Event.fatal "torch.load failed: malformed checkpoint"],
     cfg, st0, false⟩
  | some (some checkpoint) =>
    ⟨ev0 ++ [Event.logLoading cfg.TRAIN.RESUME_PATH,
             Event.loadedState checkpoint],
     { cfg with TRAIN := { cfg.TRAIN with BEGIN_EPOCH := checkpoint.epoch + 1 } },
     ⟨checkpoint.state_dict, checkpoint.optimizer, checkpoint.score⟩, true⟩

/-- Result of a whole run of main: the event trace, the configuration object
as main leaves it, and whether the run completed without a fatal error. -/
structure RunResult where
  trace : List Event
  cfg : Config
  ok : Bool
deriving DecidableEq

/-- src/main.py `main(cfg)`: model/optimizer construction and resume
(lines 27-62), the dataset assertion (line 66), the dataset print (line 68),
dataset dispatch (lines 70-88: only ucf24 and jhmdb21 bind the loaders, the
loss module and the train/test procedures), then either the single
evaluation at epoch 0 (lines 91-93) or the epoch loop (lines 95-120).  In
the ava case the evaluate path raises a NameError at the unbound
`test_loader` after the evaluating log line. -/
def main (env : Env) (cfg : Config) : RunResult :=
  let r := resumeInit env cfg
  if r.ok then
    let dataset := r.cfg.TRAIN.DATASET
    if dataset = "ucf24" ∨ dataset = "jhmdb21" ∨ dataset = "ava" then
      let evd := r.events ++ [Event.logDataset dataset]
      let defined : Bool := dataset == "ucf24" || dataset == "jhmdb21"
      if r.cfg.TRAIN.EVALUATE then
        if defined then
          ⟨evd ++ [Event.logEvaluating, Event.testCall 0 r.st.model], r.cfg, true⟩
        else
          ⟨evd ++ [Event.logEvaluating,
                   Event.fatal "NameError: name test_loader is not defined"],
           r.cfg, false⟩
      else
        let l := runLoop env r.cfg defined
          (rangeClosed r.cfg.TRAIN.BEGIN_EPOCH r.cfg.TRAIN.END_EPOCH) r.st
        ⟨evd ++ l.1, r.cfg, l.2.2⟩
    else
      ⟨r.events ++ [Event.fatal "AssertionError: invalid dataset"], r.cfg, false⟩
  else
    ⟨r.events, r.cfg, false⟩

/-- Does an event record a call of the training procedure? -/
def isTrainCall : Event → Bool
  | .trainCall _ _ _ => true
  | _ => false

/-- Does an event record a call of the evaluation procedure? -/
def isTestCall : Event → Bool
  | .testCall _ _ => true
  | _ => false

/-- Does an event record a checkpoint write to the latest slot? -/
def isSaveLatest : Event → Bool
  | .saveLatest _ => true
  | _ => false

/-- Does an event record a checkpoint write to the best slot? -/
def isSaveBest : Event → Bool
  | .saveBest _ => true
  | _ => false

/-- Does an event record a fatal error? -/
def isFatal : Event → Bool
  | .fatal _ => true
  | _ => false

/-! ### Helper lemmas about the embedding -/

theorem length_rangeClosed (b e : Int) :
    (rangeClosed b e).length = (e + 1 - b).toNat := by
  rw [rangeClosed, List.length_map, List.length_range]

theorem mem_rangeClosed (b e k : Int) :
    k ∈ rangeClosed b e ↔ b ≤ k ∧ k ≤ e := by
  simp only [rangeClosed, List.mem_map, List.mem_range]
  constructor
  · rintro ⟨i, hi, rfl⟩
    omega
  · rintro ⟨h1, h2⟩
    exact ⟨(k - b).toNat, by omega, by omega⟩

theorem head_rangeClosed (b e : Int) (h : b ≤ e) :
    (rangeClosed b e).head? = some b := by
  have : (e + 1 - b).toNat = (e - b).toNat + 1 := by omega
  simp [rangeClosed, this, List.range_succ_eq_map]

theorem epochStep_snd (env : Env) (cfg : Config) (e : Int) (st : LoopState) :
    (epochStep env cfg e st).2 =
      ⟨(env.trainUpd e (st.model, st.optim)).1,
       (env.trainUpd e (st.model, st.optim)).2,
       max st.best (env.testScore e)⟩ := by
  rcases lt_or_ge st.best (env.testScore e) with h | h
  · simp [epochStep, h, max_eq_right h.le]
  · simp [epochStep, not_lt.mpr h, max_eq_left h]

theorem countP_epochStep_train (env : Env) (cfg : Config) (e : Int) (st : LoopState) :
    (epochStep env cfg e st).1.countP isTrainCall = 1 := by
  rcases lt_or_ge st.best (env.testScore e) with h | h <;>
    simp [epochStep, save_checkpoint, h, not_lt.mpr, isTrainCall, List.countP_cons,
      List.countP_append]

theorem countP_epochStep_test (env : Env) (cfg : Config) (e : Int) (st : LoopState) :
    (epochStep env cfg e st).1.countP isTestCall = 1 := by
  rcases lt_or_ge st.best (env.testScore e) with h | h <;>
    simp [epochStep, save_checkpoint, h, isTestCall, List.countP_cons, List.countP_append]

theorem countP_epochStep_saveLatest (env : Env) (cfg : Config) (e : Int) (st : LoopState) :
    (epochStep env cfg e st).1.countP isSaveLatest = 1 := by
  rcases lt_or_ge st.best (env.testScore e) with h | h <;>
    simp [epochStep, save_checkpoint, h, isSaveLatest, List.countP_cons, List.countP_append]
  · simp [not_lt.mpr h]

theorem countP_epochStep_saveBest (env : Env) (cfg : Config) (e : Int) (st : LoopState) :
    (epochStep env cfg e st).1.countP isSaveBest =
      if st.best < env.testScore e then 1 else 0 := by
  rcases lt_or_ge st.best (env.testScore e) with h | h <;>
    simp [epochStep, save_checkpoint, h, isSaveBest, List.countP_cons, List.countP_append]
  · simp [not_lt.mpr h]

theorem runLoop_ok (env : Env) (cfg : Config) (epochs : List Int) (st : LoopState) :
    (runLoop env cfg true epochs st).2.2 = true := by
  induction epochs generalizing st with
  | nil => simp [runLoop]
  | cons a l ih => simp [runLoop, ih]

theorem runLoop_append (env : Env) (cfg : Config) (p q : List Int) (st : LoopState) :
    runLoop env cfg true (p ++ q) st =
      ((runLoop env cfg true p st).1
        ++ (runLoop env cfg true q (runLoop env cfg true p st).2.1).1,
       (runLoop env cfg true q (runLoop env cfg true p st).2.1).2) := by
  induction p generalizing st with
  | nil => simp [runLoop]
  | cons a l ih => simp [runLoop, ih, List.append_assoc]

theorem countP_runLoop (env : Env) (cfg : Config) (p : Event → Bool)
    (hstep : ∀ e st, (epochStep env cfg e st).1.countP p = 1)
    (epochs : List Int) (st : LoopState) :
    (runLoop env cfg true epochs st).1.countP p = epochs.length := by
  induction epochs generalizing st with
  | nil => simp [runLoop]
  | cons a l ih => simp [runLoop, List.countP_append, hstep, ih, Nat.add_comm]

theorem runLoop_best (env : Env) (cfg : Config) (epochs : List Int) (st : LoopState) :
    (runLoop env cfg true epochs st).2.1.best =
      (epochs.map env.testScore).foldl max st.best := by
  induction epochs generalizing st with
  | nil => simp [runLoop]
  | cons a l ih =>
    simp only [runLoop, if_true, List.map_cons, List.foldl_cons]
    rw [ih, epochStep_snd]

theorem le_foldl_max (l : List Rat) (b : Rat) : b ≤ l.foldl max b := by
  induction l generalizing b with
  | nil => simp
  | cons a l ih => exact le_trans (le_max_left b a) (ih (max b a))

theorem trainCall_mem_epochStep (env : Env) (cfg : Config) (e : Int) (st : LoopState)
    (k : Int) (m o : Nat) :
    Event.trainCall k m o ∈ (epochStep env cfg e st).1 ↔
      k = e ∧ m = st.model ∧ o = st.optim := by
  rcases lt_or_ge st.best (env.testScore e) with h | h <;>
    simp [epochStep, save_checkpoint, h, not_lt.mpr]

theorem trainCall_mem_runLoop (env : Env) (cfg : Config) (epochs : List Int)
    (st : LoopState) (k : Int) :
    (∃ m o, Event.trainCall k m o ∈ (runLoop env cfg true epochs st).1) ↔ k ∈ epochs := by
  induction epochs generalizing st with
  | nil => simp [runLoop]
  | cons a l ih =>
    simp only [runLoop, if_true, List.mem_append, List.mem_cons]
    constructor
    · rintro ⟨m, o, hm | hm⟩
      · exact Or.inl ((trainCall_mem_epochStep env cfg a st k m o).mp hm).1
      · exact Or.inr ((ih _).mp ⟨m, o, hm⟩)
    · rintro (rfl | hk)
      · exact ⟨st.model, st.optim,
          Or.inl ((trainCall_mem_epochStep env cfg k st k _ _).mpr ⟨rfl, rfl, rfl⟩)⟩
      · obtain ⟨m, o, hm⟩ := (ih (epochStep env cfg a st).2).mpr hk
        exact ⟨m, o, Or.inr hm⟩

/-- Reduction of `main` for a fresh training run (no file at the resume path,
supported dataset, evaluate-only unset). -/
theorem main_fresh (env : Env) (cfg : Config)
    (hfs : env.fs cfg.TRAIN.RESUME_PATH = none)
    (hds : cfg.TRAIN.DATASET = "ucf24" ∨ cfg.TRAIN.DATASET = "jhmdb21")
    (hev : cfg.TRAIN.EVALUATE = false) :
    main env cfg =
      ⟨[Event.modelBuilt, Event.logParams, Event.logDataset cfg.TRAIN.DATASET]
        ++ (runLoop env cfg true
              (rangeClosed cfg.TRAIN.BEGIN_EPOCH cfg.TRAIN.END_EPOCH)
              ⟨env.initModel, env.initOptim, 0⟩).1,
       cfg, true⟩ := by
  rcases hds with h | h <;>
    simp [main, resumeInit, hfs, h, hev, runLoop_ok]

theorem rangeClosed_eq_cons (b e : Int) (h : b ≤ e) :
    rangeClosed b e = b :: rangeClosed (b + 1) e := by
  have h1 : (e + 1 - b).toNat = (e + 1 - (b + 1)).toNat + 1 := by omega
  simp only [rangeClosed, h1, List.range_succ_eq_map, List.map_cons, List.map_map]
  congr 1
  · simp
  · refine List.map_congr_left ?_
    intro a _
    simp only [Function.comp_apply, Nat.succ_eq_add_one]
    push_cast
    ring

theorem find?_trainCall_runLoop_cons (env : Env) (cfg : Config) (e : Int)
    (rest : List Int) (st : LoopState) :
    (runLoop env cfg true (e :: rest) st).1.find? isTrainCall
      = some (Event.trainCall e st.model st.optim) := by
  rcases lt_or_ge st.best (env.testScore e) with h | h <;>
    simp [runLoop, epochStep, save_checkpoint, h, not_lt.mpr, isTrainCall,
      List.find?_cons]

/-- Reduction of `main` for a resumed training run (well-formed checkpoint at
the resume path, supported dataset, evaluate-only unset). -/
theorem main_resumed (env : Env) (cfg : Config) (ck : Checkpoint)
    (hfs : env.fs cfg.TRAIN.RESUME_PATH = some (some ck))
    (hds : cfg.TRAIN.DATASET = "ucf24" ∨ cfg.TRAIN.DATASET = "jhmdb21")
    (hev : cfg.TRAIN.EVALUATE = false) :
    main env cfg =
      ⟨[Event.modelBuilt, Event.logParams, Event.logLoading cfg.TRAIN.RESUME_PATH,
        Event.loadedState ck, Event.logDataset cfg.TRAIN.DATASET]
        ++ (runLoop env
              { cfg with TRAIN := { cfg.TRAIN with BEGIN_EPOCH := ck.epoch + 1 } }
              true (rangeClosed (ck.epoch + 1) cfg.TRAIN.END_EPOCH)
              ⟨ck.state_dict, ck.optimizer, ck.score⟩).1,
       { cfg with TRAIN := { cfg.TRAIN with BEGIN_EPOCH := ck.epoch + 1 } },
       true⟩ := by
  rcases hds with h | h <;>
    simp [main, resumeInit, hfs, h, hev, runLoop_ok]

/-! ### Sample environments and configurations used by witnesses -/

/-- Sample environment: no checkpoint file anywhere, scores grow with the
epoch number. -/
def envFresh : Env :=
  { fs := fun _ => none,
    trainUpd := fun _ p => (p.1 + 1, p.2 + 1),
    testScore := fun e => (e : Rat),
    lrOf := fun _ => 1,
    initModel := 0, initOptim := 0 }

/-- Sample configuration: ucf24 training run over epochs 2..4. -/
def cfg0 : Config :=
  { TRAIN := { DATASET := "ucf24", RESUME_PATH := "", BEGIN_EPOCH := 2,
               END_EPOCH := 4, EVALUATE := false, LEARNING_RATE := 1,
               BATCH_SIZE := 8 },
    SOLVER := ⟨(1 : Rat)⟩,
    DATA := ⟨16, 1, 224⟩,
    LISTDATA := ⟨"data", "trainlist.txt", "testlist.txt"⟩,
    DATA_LOADER_NUM_WORKERS := 4,
    BACKUP_DIR := "backup" }

/-! ### Claims -/

/-- C1: with the evaluate-only flag unset (and a run that reaches the loop:
supported dataset, no resume file), the main loop over a configured range
[b, e] with b ≤ e performs exactly (e - b + 1) training calls and exactly
(e - b + 1) evaluation calls, and a training call happens at an epoch k
exactly when b ≤ k ≤ e. -/
theorem C1_closed_epoch_range (env : Env) (cfg : Config)
    (hds : cfg.TRAIN.DATASET = "ucf24" ∨ cfg.TRAIN.DATASET = "jhmdb21")
    (hev : cfg.TRAIN.EVALUATE = false)
    (hfs : env.fs cfg.TRAIN.RESUME_PATH = none)
    (hbe : cfg.TRAIN.BEGIN_EPOCH ≤ cfg.TRAIN.END_EPOCH) :
    (main env cfg).trace.countP isTrainCall
        = (cfg.TRAIN.END_EPOCH - cfg.TRAIN.BEGIN_EPOCH + 1).toNat
    ∧ (main env cfg).trace.countP isTestCall
        = (cfg.TRAIN.END_EPOCH - cfg.TRAIN.BEGIN_EPOCH + 1).toNat
    ∧ ∀ k : Int, (∃ m o, Event.trainCall k m o ∈ (main env cfg).trace)
        ↔ cfg.TRAIN.BEGIN_EPOCH ≤ k ∧ k ≤ cfg.TRAIN.END_EPOCH := by
  rw [main_fresh env cfg hfs hds hev]
  have hlen : (rangeClosed cfg.TRAIN.BEGIN_EPOCH cfg.TRAIN.END_EPOCH).length
      = (cfg.TRAIN.END_EPOCH - cfg.TRAIN.BEGIN_EPOCH + 1).toNat := by
    rw [length_rangeClosed]; omega
  refine ⟨?_, ?_, ?_⟩
  · simp [List.countP_append, isTrainCall,
      countP_runLoop env cfg isTrainCall (countP_epochStep_train env cfg), hlen]
  · simp [List.countP_append, isTestCall,
      countP_runLoop env cfg isTestCall (countP_epochStep_test env cfg), hlen]
  · intro k
    rw [← mem_rangeClosed cfg.TRAIN.BEGIN_EPOCH cfg.TRAIN.END_EPOCH k,
      ← trainCall_mem_runLoop env cfg
        (rangeClosed cfg.TRAIN.BEGIN_EPOCH cfg.TRAIN.END_EPOCH)
        ⟨env.initModel, env.initOptim, 0⟩ k]
    simp

/-- Witness for C1 at a concrete input: epochs 2..4 give three train and three
evaluation calls. -/
theorem C1_witness :
    (main envFresh cfg0).trace.countP isTrainCall = 3
    ∧ (main envFresh cfg0).trace.countP isTestCall = 3 := by
  have h := C1_closed_epoch_range envFresh cfg0 (Or.inl rfl) rfl rfl (by decide)
  exact ⟨h.1, h.2.1⟩

/-- A checkpoint whose stored score is negative. -/
def ckNeg : Checkpoint := ⟨5, -1, 7, 8⟩

/-- Environment holding the well-formed checkpoint `ckNeg` at one path. -/
def envResumeNeg : Env :=
  { envFresh with
    fs := fun p => if p = "backup/yowo_ucf24_16f_ckpt.pth" then some (some ckNeg) else none }

/-- Configuration resuming from the path `envResumeNeg` serves. -/
def cfgResume : Config :=
  { cfg0 with
    TRAIN := { cfg0.TRAIN with
               RESUME_PATH := "backup/yowo_ucf24_16f_ckpt.pth", END_EPOCH := 7 } }

/-- C2 counterexample: resuming from a well-formed checkpoint whose stored
score is -1 seeds the best score with -1, which is strictly lower than the
fresh-run initial 0 — the code copies the stored score with no lower bound,
refuting the claim that the seed is never lower than 0. -/
theorem C2_counterexample :
    (resumeInit envResumeNeg cfgResume).st.best = -1
    ∧ (resumeInit envResumeNeg cfgResume).st.best < 0 := by
  constructor
  · rfl
  · decide

/-- C2 (amended): resuming from an existing well-formed checkpoint with
stored epoch k and stored score s sets the begin epoch to k + 1, seeds the
best score with exactly s (with no lower bound at the fresh-run initial 0),
and replaces the model and optimizer blobs wholesale with the stored blobs;
when the run then enters the training loop, the first training call is at
epoch k + 1 and receives exactly the stored model and optimizer blobs. -/
theorem C2_resume_restores (env : Env) (cfg : Config) (ck : Checkpoint)
    (hfs : env.fs cfg.TRAIN.RESUME_PATH = some (some ck)) :
    (resumeInit env cfg).cfg.TRAIN.BEGIN_EPOCH = ck.epoch + 1
    ∧ (resumeInit env cfg).st.best = ck.score
    ∧ (resumeInit env cfg).st.model = ck.state_dict
    ∧ (resumeInit env cfg).st.optim = ck.optimizer
    ∧ (resumeInit env cfg).ok = true
    ∧ (cfg.TRAIN.EVALUATE = false →
        (cfg.TRAIN.DATASET = "ucf24" ∨ cfg.TRAIN.DATASET = "jhmdb21") →
        ck.epoch + 1 ≤ cfg.TRAIN.END_EPOCH →
        (main env cfg).trace.find? isTrainCall
          = some (Event.trainCall (ck.epoch + 1) ck.state_dict ck.optimizer)) := by
  refine ⟨by simp [resumeInit, hfs], by simp [resumeInit, hfs],
    by simp [resumeInit, hfs], by simp [resumeInit, hfs],
    by simp [resumeInit, hfs], ?_⟩
  intro hev hds hle
  rw [main_resumed env cfg ck hfs hds hev]
  rw [rangeClosed_eq_cons (ck.epoch + 1) cfg.TRAIN.END_EPOCH hle]
  simp [List.find?_append, List.find?_cons, isTrainCall, find?_trainCall_runLoop_cons]

/-- Witness for C2 (amended) at a concrete input: checkpoint of epoch 5 with
blobs 7 and 8, end epoch 7. -/
theorem C2_witness :
    (resumeInit envResumeNeg cfgResume).cfg.TRAIN.BEGIN_EPOCH = 6
    ∧ (resumeInit envResumeNeg cfgResume).st.model = 7
    ∧ (main envResumeNeg cfgResume).trace.find? isTrainCall
        = some (Event.trainCall 6 7 8) := by
  have h := C2_resume_restores envResumeNeg cfgResume ckNeg (by decide)
  exact ⟨h.1, h.2.2.1, h.2.2.2.2.2 rfl (Or.inl rfl) (by decide)⟩

/-- C3: the best score starts at 0 (fresh or file-absent run) or at the
resumed checkpoint score; after any prefix of processed epochs it equals the
maximum of the seed and all scores seen in the prefix; it is non-decreasing
along the run; and at a tie (score equal to the current best) it is not
updated, no new-best mark is set, and no best-slot write is emitted. -/
theorem C3_best_score_invariant (env : Env) (cfg : Config) (epochs : List Int)
    (st0 : LoopState) :
    ((resumeInit env cfg).st.best = 0
      ∨ ∃ ck, env.fs cfg.TRAIN.RESUME_PATH = some (some ck)
          ∧ (resumeInit env cfg).st.best = ck.score)
    ∧ (∀ p q, epochs = p ++ q →
        (runLoop env cfg true p st0).2.1.best
            = (p.map env.testScore).foldl max st0.best
        ∧ (runLoop env cfg true p st0).2.1.best
            ≤ (runLoop env cfg true epochs st0).2.1.best)
    ∧ (∀ e st, env.testScore e = st.best →
        (epochStep env cfg e st).2.best = st.best
        ∧ ∀ ck : Checkpoint, Event.saveBest ck ∉ (epochStep env cfg e st).1) := by
  refine ⟨?_, ?_, ?_⟩
  · match hfs : env.fs cfg.TRAIN.RESUME_PATH with
    | none => exact Or.inl (by simp [resumeInit, hfs])
    | some none => exact Or.inl (by simp [resumeInit, hfs])
    | some (some ck) => exact Or.inr ⟨ck, rfl, by simp [resumeInit, hfs]⟩
  · rintro p q rfl
    refine ⟨runLoop_best env cfg p st0, ?_⟩
    rw [runLoop_best, runLoop_best, List.map_append, List.foldl_append]
    exact le_foldl_max _ _
  · intro e st h
    have hnlt : ¬ st.best < env.testScore e := by rw [h]; exact lt_irrefl _
    constructor
    · simp [epochStep, hnlt]
    · intro ck
      simp [epochStep, save_checkpoint, hnlt]

/-- Witness for C3 at concrete inputs: seed 0, epochs [2, 3] with scores 2
and 3; prefix [2] yields best 2 which is at most the final best; and a tie
at best 1 leaves the best at 1. -/
theorem C3_witness :
    (runLoop envFresh cfg0 true [2] ⟨0, 0, 0⟩).2.1.best = 2
    ∧ (runLoop envFresh cfg0 true [2] ⟨0, 0, 0⟩).2.1.best
        ≤ (runLoop envFresh cfg0 true [2, 3] ⟨0, 0, 0⟩).2.1.best
    ∧ (epochStep envFresh cfg0 1 ⟨0, 0, 1⟩).2.best = 1 := by
  have h := C3_best_score_invariant envFresh cfg0 [2, 3] (⟨0, 0, 0⟩ : LoopState)
  have hp := h.2.1 [2] [3] rfl
  have ht := (h.2.2 1 ⟨0, 0, 1⟩ (by decide)).1
  exact ⟨by rw [hp.1]; decide, hp.2, ht⟩

/-- Evaluate-only configuration sample. -/
def cfgEval : Config :=
  { cfg0 with TRAIN := { cfg0.TRAIN with EVALUATE := true } }

/-- C4: with the evaluate-only flag set (and a run that reaches the dispatch:
supported dataset, resume step not fatal), the run performs exactly one
evaluation call, it is at epoch 0, and performs zero training calls and zero
checkpoint writes, whatever the configured begin and end epochs are. -/
theorem C4_evaluate_only (env : Env) (cfg : Config)
    (hev : cfg.TRAIN.EVALUATE = true)
    (hds : cfg.TRAIN.DATASET = "ucf24" ∨ cfg.TRAIN.DATASET = "jhmdb21")
    (hfs : env.fs cfg.TRAIN.RESUME_PATH ≠ some none) :
    (main env cfg).trace.countP isTestCall = 1
    ∧ (∀ k m, Event.testCall k m ∈ (main env cfg).trace → k = 0)
    ∧ (main env cfg).trace.countP isTrainCall = 0
    ∧ (main env cfg).trace.countP isSaveLatest = 0
    ∧ (main env cfg).trace.countP isSaveBest = 0 := by
  match hf : env.fs cfg.TRAIN.RESUME_PATH with
  | none =>
    rcases hds with h | h <;>
      simp [main, resumeInit, hf, h, hev, isTestCall, isTrainCall, isSaveLatest,
        isSaveBest, List.countP_cons]
  | some none => exact absurd hf hfs
  | some (some ck) =>
    rcases hds with h | h <;>
      simp [main, resumeInit, hf, h, hev, isTestCall, isTrainCall, isSaveLatest,
        isSaveBest, List.countP_cons]

/-- Witness for C4 at a concrete input. -/
theorem C4_witness :
    (main envFresh cfgEval).trace.countP isTestCall = 1
    ∧ (main envFresh cfgEval).trace.countP isTrainCall = 0
    ∧ (main envFresh cfgEval).trace.countP isSaveLatest = 0 := by
  have h := C4_evaluate_only envFresh cfgEval rfl (Or.inl rfl) (by decide)
  exact ⟨h.1, h.2.2.1, h.2.2.2.1⟩

/-- Configuration with a dataset identifier outside the recognized set. -/
def cfgBadDataset : Config :=
  { cfg0 with TRAIN := { cfg0.TRAIN with DATASET := "imagenet" } }

/-- C5 counterexample: with an unsupported dataset identifier the model IS
built before the configuration error is reported — the fatal assertion
comes after the model-construction event in the trace, refuting the claim
that the run fails before any model construction side effect. -/
theorem C5_counterexample :
    main envFresh cfgBadDataset =
      ⟨[Event.modelBuilt, Event.logParams,
        Event.fatal "AssertionError: invalid dataset"], cfgBadDataset, false⟩ := by
  decide

/-- C5 (amended): with a dataset identifier outside {ucf24, jhmdb21, ava}
the run does fail fatally, with no training call, no evaluation call and no
checkpoint write — but only after the model construction side effect: the
trace starts with the model-built event, and (when the resume step did not
already abort first) the dataset assertion failure is reported after it. -/
theorem C5_invalid_dataset (env : Env) (cfg : Config)
    (h1 : cfg.TRAIN.DATASET ≠ "ucf24") (h2 : cfg.TRAIN.DATASET ≠ "jhmdb21")
    (h3 : cfg.TRAIN.DATASET ≠ "ava") :
    (main env cfg).ok = false
    ∧ (∃ rest, (main env cfg).trace = Event.modelBuilt :: rest
        ∧ ∃ msg, Event.fatal msg ∈ rest)
    ∧ (main env cfg).trace.countP isTrainCall = 0
    ∧ (main env cfg).trace.countP isTestCall = 0
    ∧ (main env cfg).trace.countP isSaveLatest = 0
    ∧ (env.fs cfg.TRAIN.RESUME_PATH ≠ some none →
        Event.fatal "AssertionError: invalid dataset" ∈ (main env cfg).trace) := by
  match hf : env.fs cfg.TRAIN.RESUME_PATH with
  | none =>
    have heq : main env cfg =
        ⟨[Event.modelBuilt, Event.logParams,
          Event.fatal "AssertionError: invalid dataset"], cfg, false⟩ := by
      simp [main, resumeInit, hf, h1, h2, h3]
    rw [heq]
    exact ⟨rfl, ⟨_, rfl, "AssertionError: invalid dataset", by simp⟩,
      by simp [isTrainCall], by simp [isTestCall], by simp [isSaveLatest],
      fun _ => by simp⟩
  | some none =>
    have heq : main env cfg =
        ⟨[Event.modelBuilt, Event.logParams,
          Event.logLoading cfg.TRAIN.RESUME_PATH,
          Event.fatal "torch.load failed: malformed checkpoint"], cfg, false⟩ := by
      simp [main, resumeInit, hf]
    rw [heq]
    exact ⟨rfl, ⟨_, rfl, "torch.load failed: malformed checkpoint", by simp⟩,
      by simp [isTrainCall], by simp [isTestCall], by simp [isSaveLatest],
      fun hne => absurd rfl hne⟩
  | some (some ck) =>
    have heq : main env cfg =
        ⟨[Event.modelBuilt, Event.logParams,
          Event.logLoading cfg.TRAIN.RESUME_PATH, Event.loadedState ck,
          Event.fatal "AssertionError: invalid dataset"],
         { cfg with TRAIN := { cfg.TRAIN with BEGIN_EPOCH := ck.epoch + 1 } },
         false⟩ := by
      simp [main, resumeInit, hf, h1, h2, h3]
    rw [heq]
    exact ⟨rfl, ⟨_, rfl, "AssertionError: invalid dataset", by simp⟩,
      by simp [isTrainCall], by simp [isTestCall], by simp [isSaveLatest],
      fun _ => by simp⟩

/-- Witness for C5 (amended) at a concrete input. -/
theorem C5_witness :
    (main envFresh cfgBadDataset).ok = false
    ∧ Event.fatal "AssertionError: invalid dataset"
        ∈ (main envFresh cfgBadDataset).trace := by
  have h := C5_invalid_dataset envFresh cfgBadDataset
    (by decide) (by decide) (by decide)
  exact ⟨h.1, h.2.2.2.2.2 (by decide)⟩

theorem rangeClosed_eq_nil (b e : Int) (h : e < b) : rangeClosed b e = [] := by
  have h1 : (e + 1 - b).toNat = 0 := by omega
  simp [rangeClosed, h1]

/-- Configuration: ava dataset with an empty epoch range. -/
def cfgAvaEmpty : Config :=
  { cfg0 with
    TRAIN := { cfg0.TRAIN with DATASET := "ava", BEGIN_EPOCH := 1, END_EPOCH := 0 } }

/-- Configuration: ava dataset with the nonempty epoch range 2..4. -/
def cfgAvaLoop : Config :=
  { cfg0 with TRAIN := { cfg0.TRAIN with DATASET := "ava" } }

/-- C6 counterexample: with dataset ava, evaluate-only unset and an empty
epoch range, the run completes with no fatal event at all — it silently
no-ops instead of failing fatally as the claim requires. -/
theorem C6_counterexample :
    main envFresh cfgAvaEmpty =
      ⟨[Event.modelBuilt, Event.logParams, Event.logDataset "ava"],
       cfgAvaEmpty, true⟩ := by
  decide

/-- C6 (amended): with dataset ava the run never executes a training or
evaluation procedure and never writes a checkpoint; whenever the unresolved
procedure pair would actually be invoked (evaluate-only set, or a nonempty
epoch range) the run fails fatally — but with an unbound-name NameError
raised at the call site, not with a clear unsupported-dataset diagnostic;
with evaluate-only unset and an empty epoch range the run instead completes
silently, with no fatal event. -/
theorem C6_ava_unresolved (env : Env) (cfg : Config)
    (hds : cfg.TRAIN.DATASET = "ava")
    (hfs : env.fs cfg.TRAIN.RESUME_PATH = none) :
    (main env cfg).trace.countP isTrainCall = 0
    ∧ (main env cfg).trace.countP isTestCall = 0
    ∧ (main env cfg).trace.countP isSaveLatest = 0
    ∧ (cfg.TRAIN.EVALUATE = true →
        (main env cfg).ok = false
        ∧ Event.fatal "NameError: name test_loader is not defined"
            ∈ (main env cfg).trace)
    ∧ (cfg.TRAIN.EVALUATE = false →
        cfg.TRAIN.BEGIN_EPOCH ≤ cfg.TRAIN.END_EPOCH →
        (main env cfg).ok = false
        ∧ Event.fatal "NameError: name train_loader is not defined"
            ∈ (main env cfg).trace)
    ∧ (cfg.TRAIN.EVALUATE = false →
        cfg.TRAIN.END_EPOCH < cfg.TRAIN.BEGIN_EPOCH →
        (main env cfg).ok = true
        ∧ ∀ msg, Event.fatal msg ∉ (main env cfg).trace) := by
  cases hev : cfg.TRAIN.EVALUATE with
  | true =>
    have heq : main env cfg =
        ⟨[Event.modelBuilt, Event.logParams, Event.logDataset "ava",
          Event.logEvaluating,
          Event.fatal "NameError: name test_loader is not defined"], cfg, false⟩ := by
      simp [main, resumeInit, hfs, hds, hev]
    rw [heq]
    refine ⟨by simp [isTrainCall], by simp [isTestCall], by simp [isSaveLatest],
      fun _ => ⟨rfl, by simp⟩, fun h => by simp at h, fun h => by simp at h⟩
  | false =>
    rcases le_or_lt cfg.TRAIN.BEGIN_EPOCH cfg.TRAIN.END_EPOCH with hbe | hbe
    · have heq : main env cfg =
          ⟨[Event.modelBuilt, Event.logParams, Event.logDataset "ava",
            Event.logTrainEpoch cfg.TRAIN.BEGIN_EPOCH (env.lrOf cfg.TRAIN.BEGIN_EPOCH),
            Event.fatal "NameError: name train_loader is not defined"], cfg, false⟩ := by
        simp [main, resumeInit, hfs, hds, hev,
          rangeClosed_eq_cons cfg.TRAIN.BEGIN_EPOCH cfg.TRAIN.END_EPOCH hbe, runLoop]
      rw [heq]
      refine ⟨by simp [isTrainCall], by simp [isTestCall], by simp [isSaveLatest],
        fun h => by simp at h, fun _ _ => ⟨rfl, by simp⟩,
        fun _ h => absurd hbe (not_le.mpr h)⟩
    · have heq : main env cfg =
          ⟨[Event.modelBuilt, Event.logParams, Event.logDataset "ava"], cfg, true⟩ := by
        simp [main, resumeInit, hfs, hds, hev,
          rangeClosed_eq_nil cfg.TRAIN.BEGIN_EPOCH cfg.TRAIN.END_EPOCH hbe, runLoop]
      rw [heq]
      refine ⟨by simp [isTrainCall], by simp [isTestCall], by simp [isSaveLatest],
        fun h => by simp at h, fun _ h => absurd h (not_le.mpr hbe),
        fun _ _ => ⟨rfl, fun msg => by simp⟩⟩

/-- Witness for C6 (amended) at a concrete input: ava with epochs 2..4 fails
with the NameError at the first loop iteration. -/
theorem C6_witness :
    (main envFresh cfgAvaLoop).ok = false
    ∧ Event.fatal "NameError: name train_loader is not defined"
        ∈ (main envFresh cfgAvaLoop).trace := by
  have h := C6_ava_unresolved envFresh cfgAvaLoop rfl rfl
  exact h.2.2.2.2.1 rfl (by decide)

theorem runLoop_congr_backup (env : Env) (cfg1 cfg2 : Config)
    (hbd : cfg1.BACKUP_DIR = cfg2.BACKUP_DIR) (d : Bool) (epochs : List Int)
    (st : LoopState) :
    runLoop env cfg1 d epochs st = runLoop env cfg2 d epochs st := by
  induction epochs generalizing st with
  | nil => rfl
  | cons a l ih => cases d <;> simp [runLoop, epochStep, hbd, ih]

/-- The run only looks at the resume path through the filesystem and the
loading log line: two configurations differing only in the resume path, with
no file at either path, produce the same trace and outcome. -/
theorem main_congr_resume_path (env : Env) (cfg : Config) (p2 : String)
    (h1 : env.fs cfg.TRAIN.RESUME_PATH = none) (h2 : env.fs p2 = none) :
    (main env cfg).trace
      = (main env
          { cfg with TRAIN := { cfg.TRAIN with RESUME_PATH := p2 } }).trace
    ∧ (main env cfg).ok
      = (main env
          { cfg with TRAIN := { cfg.TRAIN with RESUME_PATH := p2 } }).ok := by
  have hrl := runLoop_congr_backup env
    { cfg with TRAIN := { cfg.TRAIN with RESUME_PATH := p2 } } cfg rfl
  constructor <;> simp [main, resumeInit, h1, h2, hrl] <;> split_ifs <;> rfl

/-- C7: the resume step aborts the run exactly when a file exists at the
resume path but is malformed, and then the run is fatal; when no file exists
at the resume path the step is skipped without error, the configuration and
the zero best-score seed are untouched, and the whole run has the same trace
and outcome as a fresh run whose resume path also names no file. -/
theorem C7_resume_error_kinds (env : Env) (cfg : Config) :
    ((resumeInit env cfg).ok = false ↔ env.fs cfg.TRAIN.RESUME_PATH = some none)
    ∧ (env.fs cfg.TRAIN.RESUME_PATH = some none →
        (main env cfg).ok = false
        ∧ Event.fatal "torch.load failed: malformed checkpoint"
            ∈ (main env cfg).trace)
    ∧ (env.fs cfg.TRAIN.RESUME_PATH = none →
        (resumeInit env cfg).st.best = 0
        ∧ (resumeInit env cfg).cfg = cfg
        ∧ ∀ p2, env.fs p2 = none →
            (main env cfg).trace
              = (main env
                  { cfg with TRAIN := { cfg.TRAIN with RESUME_PATH := p2 } }).trace
            ∧ (main env cfg).ok
              = (main env
                  { cfg with TRAIN := { cfg.TRAIN with RESUME_PATH := p2 } }).ok) := by
  refine ⟨?_, ?_, ?_⟩
  · match hf : env.fs cfg.TRAIN.RESUME_PATH with
    | none => simp [resumeInit, hf]
    | some none => simp [resumeInit, hf]
    | some (some ck) => simp [resumeInit, hf]
  · intro hf
    constructor
    · simp [main, resumeInit, hf]
    · simp [main, resumeInit, hf]
  · intro hf
    exact ⟨by simp [resumeInit, hf], by simp [resumeInit, hf],
      fun p2 h2 => main_congr_resume_path env cfg p2 hf h2⟩

/-- Environment with a malformed (unloadable) file at one path. -/
def envMalformed : Env :=
  { envFresh with
    fs := fun p => if p = "backup/truncated.pth" then some none else none }

/-- Configuration resuming from the malformed file of `envMalformed`. -/
def cfgMalformed : Config :=
  { cfg0 with
    TRAIN := { cfg0.TRAIN with RESUME_PATH := "backup/truncated.pth" } }

/-- Configuration whose resume path names no existing file. -/
def cfgMissingResume : Config :=
  { cfg0 with
    TRAIN := { cfg0.TRAIN with RESUME_PATH := "backup/not_there.pth" } }

/-- Witness for C7 at concrete inputs: a malformed checkpoint aborts the run;
a missing file leaves the run equal to the fresh run. -/
theorem C7_witness :
    (main envMalformed cfgMalformed).ok = false
    ∧ (main envFresh cfgMissingResume).trace = (main envFresh cfg0).trace := by
  constructor
  · exact ((C7_resume_error_kinds envMalformed cfgMalformed).2.1 (by decide)).1
  · have h := ((C7_resume_error_kinds envFresh cfgMissingResume).2.2 (by decide)).2.2
      cfg0.TRAIN.RESUME_PATH (by decide)
    simpa using h.1

/-- C8: at the end of every completed training epoch the loop builds one
checkpoint record carrying exactly that epoch number, that epoch's
evaluation score and the post-training model and optimizer blobs; this
record is written to the latest slot unconditionally — exactly once per
epoch, also counted across the whole loop — and to the best slot exactly
when the score strictly exceeds the best score so far; no other record is
written. -/
theorem C8_checkpoint_persistence :
    (∀ (env : Env) (cfg : Config) (e : Int) (st : LoopState),
      Event.saveLatest
          ⟨e, env.testScore e, (env.trainUpd e (st.model, st.optim)).1,
            (env.trainUpd e (st.model, st.optim)).2⟩
        ∈ (epochStep env cfg e st).1
      ∧ (epochStep env cfg e st).1.countP isSaveLatest = 1
      ∧ (Event.saveBest
            ⟨e, env.testScore e, (env.trainUpd e (st.model, st.optim)).1,
              (env.trainUpd e (st.model, st.optim)).2⟩
          ∈ (epochStep env cfg e st).1 ↔ st.best < env.testScore e)
      ∧ (∀ ck : Checkpoint,
          Event.saveLatest ck ∈ (epochStep env cfg e st).1
            ∨ Event.saveBest ck ∈ (epochStep env cfg e st).1 →
          ck = ⟨e, env.testScore e, (env.trainUpd e (st.model, st.optim)).1,
                (env.trainUpd e (st.model, st.optim)).2⟩))
    ∧ ∀ (env : Env) (cfg : Config) (epochs : List Int) (st : LoopState),
      (runLoop env cfg true epochs st).1.countP isSaveLatest = epochs.length := by
  constructor
  · intro env cfg e st
    rcases lt_or_ge st.best (env.testScore e) with h | h
    · refine ⟨by simp [epochStep, save_checkpoint, h],
        countP_epochStep_saveLatest env cfg e st,
        by simp [epochStep, save_checkpoint, h], ?_⟩
      intro ck hck
      rcases hck with hck | hck <;>
        simpa [epochStep, save_checkpoint, h] using hck
    · refine ⟨by simp [epochStep, save_checkpoint, not_lt.mpr h],
        countP_epochStep_saveLatest env cfg e st,
        by simp [epochStep, save_checkpoint, not_lt.mpr h], ?_⟩
      intro ck hck
      rcases hck with hck | hck
      · simpa [epochStep, save_checkpoint, not_lt.mpr h] using hck
      · simp [epochStep, save_checkpoint, not_lt.mpr h] at hck
  · intro env cfg epochs st
    exact countP_runLoop env cfg isSaveLatest
      (countP_epochStep_saveLatest env cfg) epochs st

/-- Witness for C8 at concrete inputs: epoch 2 of the sample run saves the
record of epoch 2 with score 2 and blobs 1, 1; the three-epoch loop writes
the latest slot three times. -/
theorem C8_witness :
    Event.saveLatest ⟨2, 2, 1, 1⟩ ∈ (epochStep envFresh cfg0 2 ⟨0, 0, 0⟩).1
    ∧ (runLoop envFresh cfg0 true [2, 3, 4] ⟨0, 0, 0⟩).1.countP isSaveLatest = 3 := by
  have h := C8_checkpoint_persistence
  refine ⟨?_, h.2 envFresh cfg0 [2, 3, 4] ⟨0, 0, 0⟩⟩
  have h1 := (h.1 envFresh cfg0 2 ⟨0, 0, 0⟩).1
  simpa [envFresh] using h1

/-- C9 counterexample: the configuration object is NOT immutable — a resumed
run overwrites cfg.TRAIN.BEGIN_EPOCH: resuming a checkpoint of epoch 5 turns
the configured begin epoch 2 into 6. -/
theorem C9_counterexample :
    cfgResume.TRAIN.BEGIN_EPOCH = 2
    ∧ (main envResumeNeg cfgResume).cfg.TRAIN.BEGIN_EPOCH = 6 := by
  constructor
  · rfl
  · decide

theorem main_cfg (env : Env) (cfg : Config) :
    (main env cfg).cfg = (resumeInit env cfg).cfg := by
  simp only [main]
  split_ifs <;> rfl

/-- C9 (amended): no orchestrator operation mutates any configuration field
except TRAIN.BEGIN_EPOCH, which is overwritten (with the stored epoch plus
one) exactly when the resume step loads a well-formed checkpoint; otherwise
the configuration object is returned unchanged. -/
theorem C9_config_mutation (env : Env) (cfg : Config) :
    (main env cfg).cfg = cfg
    ∨ ∃ ck, env.fs cfg.TRAIN.RESUME_PATH = some (some ck)
        ∧ (main env cfg).cfg
            = { cfg with TRAIN := { cfg.TRAIN with BEGIN_EPOCH := ck.epoch + 1 } } := by
  rw [main_cfg]
  match hf : env.fs cfg.TRAIN.RESUME_PATH with
  | none => exact Or.inl (by simp [resumeInit, hf])
  | some none => exact Or.inl (by simp [resumeInit, hf])
  | some (some ck) => exact Or.inr ⟨ck, rfl, by simp [resumeInit, hf]⟩

theorem runLoop_no_saveBest (env : Env) (cfg : Config) (epochs : List Int)
    (st : LoopState) (hsc : ∀ k ∈ epochs, env.testScore k ≤ st.best) :
    (runLoop env cfg true epochs st).1.countP isSaveBest = 0 := by
  induction epochs generalizing st with
  | nil => simp [runLoop]
  | cons a l ih =>
    have ha : env.testScore a ≤ st.best := hsc a (List.mem_cons_self a l)
    have hnb : ¬ st.best < env.testScore a := not_lt.mpr ha
    have hbest : (epochStep env cfg a st).2.best = st.best := by
      rw [epochStep_snd]
      exact max_eq_left ha
    have ih' := ih (epochStep env cfg a st).2
      (by intro k hk; rw [hbest]; exact hsc k (List.mem_cons_of_mem a hk))
    simp [runLoop, List.countP_append, countP_epochStep_saveBest, hnb, ih']

/-- C10: in a fresh run (no file at the resume path, supported dataset,
evaluate-only unset) in which every epoch's evaluation score is at most 0,
the best slot is never written at any point, while the latest slot is still
written exactly once per epoch — the best score stays at its initial 0 and
the comparison is strict. -/
theorem C10_no_best_writes (env : Env) (cfg : Config)
    (hds : cfg.TRAIN.DATASET = "ucf24" ∨ cfg.TRAIN.DATASET = "jhmdb21")
    (hev : cfg.TRAIN.EVALUATE = false)
    (hfs : env.fs cfg.TRAIN.RESUME_PATH = none)
    (hsc : ∀ k ∈ rangeClosed cfg.TRAIN.BEGIN_EPOCH cfg.TRAIN.END_EPOCH,
        env.testScore k ≤ 0) :
    (main env cfg).trace.countP isSaveBest = 0
    ∧ (main env cfg).trace.countP isSaveLatest
        = (rangeClosed cfg.TRAIN.BEGIN_EPOCH cfg.TRAIN.END_EPOCH).length := by
  rw [main_fresh env cfg hfs hds hev]
  constructor
  · simp [List.countP_append, isSaveBest,
      runLoop_no_saveBest env cfg _ ⟨env.initModel, env.initOptim, 0⟩ hsc]
  · simp [List.countP_append, isSaveLatest,
      countP_runLoop env cfg isSaveLatest (countP_epochStep_saveLatest env cfg)]

/-- Environment whose evaluation scores are all negative. -/
def envNegScores : Env := { envFresh with testScore := fun _ => (-1 : Rat) }

/-- Witness for C10 at a concrete input: scores constantly -1 over epochs
2..4 give zero best-slot writes and three latest-slot writes. -/
theorem C10_witness :
    (main envNegScores cfg0).trace.countP isSaveBest = 0
    ∧ (main envNegScores cfg0).trace.countP isSaveLatest = 3 := by
  have h := C10_no_best_writes envNegScores cfg0 (Or.inl rfl) rfl rfl
    (by intro k _; show (-1 : Rat) ≤ 0; decide)
  exact ⟨h.1, by rw [h.2]; rfl⟩

end YOWO
